import Mathlib

/-! Session-backed authentication gate (`web/middleware.go`).

A shallow embedding of the middlewares of the `web` package:
`authenticate`, `loggedInMiddleware.ServeHTTP`, `guestMiddleware.ServeHTTP`
and `clientMiddleware.ServeHTTP`.

The collaborators of the package (the oauth service, the session service, the
`net/http` helpers and the `next` handler) live outside `web/middleware.go`.
They are taken as parameters: every service method is a function on an explicit
world state `W`, and every call the middleware makes on a collaborator is
recorded, in program order, in a list of `Event`s.

The query string of the request is followed down to the redirect: `net/url`
(`ParseQuery`, `QueryUnescape`, `QueryEscape`, `Values.Encode`) is embedded on
Go strings read as byte strings, a byte being the character with that code.
-/

namespace Web

/-- Go `error` value; the middlewares observe it only through `Error()`. -/
structure GoError where
  Error : String
deriving DecidableEq, Repr

/-- The `url.Values` map of `net/url`, as an association list from a key to
its list of values. -/
abbrev Values := List (String × List String)

/-- The `Values.Get` method of `net/url`: the first value associated with
the key, or the empty string when the key has no value. -/
def Values.Get (v : Values) (key : String) : String :=
  match v.lookup key with
  | some (x :: _) => x
  | _ => ""

/-- The function `ishex` of `net/url`. -/
def ishex (c : Char) : Bool :=
  (48 ≤ c.toNat && c.toNat ≤ 57) || (97 ≤ c.toNat && c.toNat ≤ 102)
    || (65 ≤ c.toNat && c.toNat ≤ 70)

/-- The function `unhex` of `net/url`. -/
def unhex (c : Char) : Nat :=
  if 48 ≤ c.toNat && c.toNat ≤ 57 then c.toNat - 48
  else if 97 ≤ c.toNat && c.toNat ≤ 102 then c.toNat - 97 + 10
  else if 65 ≤ c.toNat && c.toNat ≤ 70 then c.toNat - 65 + 10
  else 0

/-- The function `unescape` of `net/url` in the mode `encodeQueryComponent`:
`%XX` becomes the byte `XX`, `+` becomes a space, and a `%` that is not
followed by two hexadecimal digits is an error (`none`). -/
def unescape : List Char → Option (List Char)
  | [] => some []
  | '%' :: a :: b :: rest =>
    if ishex a && ishex b then
      (unescape rest).map (Char.ofNat (unhex a * 16 + unhex b) :: ·)
    else none
  | '%' :: _ => none
  | '+' :: rest => (unescape rest).map (' ' :: ·)
  | c :: rest => (unescape rest).map (c :: ·)

/-- The function `shouldEscape` of `net/url` in the mode
`encodeQueryComponent`: everything but letters, digits and `-`, `_`, `.`,
`~` is escaped. -/
def shouldEscape (c : Char) : Bool :=
  !((97 ≤ c.toNat && c.toNat ≤ 122) || (65 ≤ c.toNat && c.toNat ≤ 90)
    || (48 ≤ c.toNat && c.toNat ≤ 57)
    || c = '-' || c = '_' || c = '.' || c = '~')

/-- The digit of index `n % 16` in the table `upperhex` of `net/url`. -/
def upperhex (n : Nat) : Char := "0123456789ABCDEF".data.getD (n % 16) '0'

/-- The function `escape` of `net/url` in the mode `encodeQueryComponent`: a
space becomes `+`, a byte to escape becomes `%` and its two upper-case
hexadecimal digits. -/
def escape : List Char → List Char
  | [] => []
  | c :: rest =>
    if c = ' ' then '+' :: escape rest
    else if shouldEscape c then
      '%' :: upperhex (c.toNat / 16) :: upperhex c.toNat :: escape rest
    else c :: escape rest

/-- The function `QueryEscape` of `net/url`. -/
def QueryEscape (s : String) : String := String.mk (escape s.data)

/-- The pieces of a string between the occurrences of a separator byte: the
values the loop of `parseQuery` gets from `strings.Cut(query, "&")`, in
order. -/
def splitByte (sep : Char) : List Char → List (List Char)
  | [] => [[]]
  | c :: cs =>
    if c = sep then [] :: splitByte sep cs
    else match splitByte sep cs with
      | [] => [[c]]
      | seg :: rest => (c :: seg) :: rest

/-- The function `strings.Cut` on a one-byte separator: the text before the
first separator and the text after it. -/
def Cut (sep : Char) : List Char → List Char × List Char
  | [] => ([], [])
  | c :: cs => if c = sep then ([], cs) else (c :: (Cut sep cs).1, (Cut sep cs).2)

/-- The statement `m[key] = append(m[key], value)` on a `url.Values` map. -/
def Values.Add (v : Values) (key value : String) : Values :=
  match v with
  | [] => [(key, [value])]
  | (k, vs) :: rest =>
    if k = key then (k, vs ++ [value]) :: rest else (k, vs) :: Values.Add rest key value

/-- One turn of the loop of `parseQuery` of `net/url`: a piece that holds a
semicolon, is empty, or whose key or value does not unescape is skipped; any
other piece adds its value under its key. -/
def parsePair (m : Values) (segment : List Char) : Values :=
  if segment.contains ';' then m
  else if segment.isEmpty then m
  else
    match unescape (Cut '=' segment).1, unescape (Cut '=' segment).2 with
    | some key, some value => m.Add (String.mk key) (String.mk value)
    | _, _ => m

/-- The map that `url.ParseQuery` returns next to its error. -/
def ParseQuery (query : String) : Values := (splitByte '&' query.data).foldl parsePair []

/-- The order of Go on strings: byte by byte. -/
def bytesLess : List Char → List Char → Bool
  | [], [] => false
  | [], _ :: _ => true
  | _ :: _, [] => false
  | a :: as, b :: bs =>
    if a.toNat < b.toNat then true
    else if b.toNat < a.toNat then false
    else bytesLess as bs

/-- Insertion of a key into a sorted list of keys. -/
def insertKey (k : String) : List String → List String
  | [] => [k]
  | x :: xs => if bytesLess x.data k.data then x :: insertKey k xs else k :: x :: xs

/-- The keys in increasing order, as `sort.Strings` leaves them. -/
def sortKeys : List String → List String
  | [] => []
  | k :: ks => insertKey k (sortKeys ks)

/-- The keys of a `url.Values` map, each once. -/
def mapKeys : Values → List String
  | [] => []
  | (k, _) :: rest => if (mapKeys rest).contains k then mapKeys rest else k :: mapKeys rest

/-- The `Values.Encode` method of `net/url`: the pairs `key=value`, escaped,
joined by `&`, the keys in increasing order. -/
def Values.Encode (v : Values) : String :=
  String.intercalate "&"
    ((sortKeys (mapKeys v)).map (fun k =>
      ((v.lookup k).getD []).map (fun x => QueryEscape k ++ "=" ++ QueryEscape x))).flatten

/-- The parts of `*http.Request` the middlewares read: `r.Form` (filled by
`r.ParseForm()`) and the query string `r.URL.RawQuery`. -/
structure Request where
  Form : Values
  RawQuery : String
deriving DecidableEq, Repr

/-- The call `r.URL.Query()`: the map `url.ParseQuery` builds from
`r.URL.RawQuery`, its error dropped. -/
def Request.URLQuery (r : Request) : Values := ParseQuery r.RawQuery

/-- The `session.UserSession` record. -/
structure UserSession where
  ClientID : String
  AccessToken : String
  RefreshToken : String
deriving DecidableEq, Repr

/-- The fields of `oauth.AccessToken` that `authenticate` reads. -/
structure AccessToken where
  Token : String
deriving DecidableEq, Repr

/-- The fields of `oauth.RefreshToken` that `authenticate` reads. -/
structure RefreshToken (Client User : Type) where
  Client : Client
  User : User
  Scope : String
  Token : String
deriving DecidableEq, Repr

/-- The methods of `theService.oauthService` used by the middlewares. Each
one runs on the world state and returns its Go result together with the
world it leaves; `none` stands for a `nil` error. -/
structure OauthService (W Client User : Type) where
  Authenticate : String → W → Option GoError × W
  FindClientByClientID : String → W → Except GoError Client × W
  ValidateRefreshToken : String → Client → W → Except GoError (RefreshToken Client User) × W
  GrantAccessToken : Client → User → String → W → Except GoError AccessToken × W
  GetOrCreateRefreshToken : Client → User → String → W → Except GoError (RefreshToken Client User) × W

/-- The methods of `session.Service` used by the middlewares. -/
structure SessionService (W : Type) where
  StartUserSession : W → Option GoError × W
  GetUserSession : W → Except GoError UserSession × W
  SetUserSession : UserSession → W → Option GoError × W

/-- One call made by a middleware on a collaborator, with its arguments:
the methods of the session and oauth services, `context.Set` (on
`sessionServiceKey` and on `clientKey`), `http.Error`, `http.Redirect`, and
the `next` handler. -/
inductive Event (Client User : Type) where
  | StartUserSession
  | GetUserSession
  | SetUserSession (userSession : UserSession)
  | contextSetSessionService
  | contextSetClient (client : Client)
  | Authenticate (accessToken : String)
  | FindClientByClientID (clientID : String)
  | ValidateRefreshToken (token : String) (client : Client)
  | GrantAccessToken (client : Client) (user : User) (scope : String)
  | GetOrCreateRefreshToken (client : Client) (user : User) (scope : String)
  | httpError (message : String) (code : Nat)
  | httpRedirect (url : String) (code : Nat)
  | next
deriving DecidableEq, Repr

/-- The constant `http.StatusInternalServerError`. -/
def StatusInternalServerError : Nat := 500

/-- The constant `http.StatusBadRequest`. -/
def StatusBadRequest : Nat := 400

/-- The constant `http.StatusFound`. -/
def StatusFound : Nat := 302

/-- Modelled from the spec: the helper `redirectWithQueryString` of the `web`
package, which `web/middleware.go` calls and does not contain. The
specification has the redirect send the visitor "to a login entry point,
original query parameters preserved". The parameters reach the helper as the
`url.Values` map of its second argument, so it answers with `http.Redirect`,
status 302, to the target followed by `?` and the encoding of that map, or to
the bare target when the encoding is empty. -/
def redirectWithQueryString {Client User : Type} (target : String) (query : Values) :
    Event Client User :=
  .httpRedirect
    (target ++ if query.Encode.length > 0 then "?" ++ query.Encode else "") StatusFound

/-- What one run of `authenticate` leaves behind: the returned error (`none`
is `nil`), the record behind the `userSession` pointer, the world, and the
calls made on the oauth service in order. -/
structure AuthResult (W Client User : Type) where
  err : Option GoError
  userSession : UserSession
  world : W
  calls : List (Event Client User)

/-- The function `authenticate` of `web/middleware.go`. -/
def authenticate {W Client User : Type} (oauthService : OauthService W Client User)
    (userSession : UserSession) (w : W) : AuthResult W Client User :=
  -- Try to authenticate with the stored access token
  match oauthService.Authenticate userSession.AccessToken w with
  | (none, w1) =>
    -- Access token valid, return
    ⟨none, userSession, w1, [.Authenticate userSession.AccessToken]⟩
  | (some _, w1) =>
    -- Fetch the client
    match oauthService.FindClientByClientID userSession.ClientID w1 with
    | (.error err, w2) =>
      ⟨some err, userSession, w2,
        [.Authenticate userSession.AccessToken,
         .FindClientByClientID userSession.ClientID]⟩
    | (.ok client, w2) =>
      -- Validate the refresh token
      match oauthService.ValidateRefreshToken userSession.RefreshToken client w2 with
      | (.error err, w3) =>
        ⟨some err, userSession, w3,
          [.Authenticate userSession.AccessToken,
           .FindClientByClientID userSession.ClientID,
           .ValidateRefreshToken userSession.RefreshToken client]⟩
      | (.ok theRefreshToken, w3) =>
        -- Create a new access token
        match oauthService.GrantAccessToken theRefreshToken.Client theRefreshToken.User
            theRefreshToken.Scope w3 with
        | (.error err, w4) =>
          ⟨some err, userSession, w4,
            [.Authenticate userSession.AccessToken,
             .FindClientByClientID userSession.ClientID,
             .ValidateRefreshToken userSession.RefreshToken client,
             .GrantAccessToken theRefreshToken.Client theRefreshToken.User
               theRefreshToken.Scope]⟩
        | (.ok accessToken, w4) =>
          -- Create or retrieve a refresh token
          match oauthService.GetOrCreateRefreshToken theRefreshToken.Client
              theRefreshToken.User theRefreshToken.Scope w4 with
          | (.error err, w5) =>
            ⟨some err, userSession, w5,
              [.Authenticate userSession.AccessToken,
               .FindClientByClientID userSession.ClientID,
               .ValidateRefreshToken userSession.RefreshToken client,
               .GrantAccessToken theRefreshToken.Client theRefreshToken.User
                 theRefreshToken.Scope,
               .GetOrCreateRefreshToken theRefreshToken.Client theRefreshToken.User
                 theRefreshToken.Scope]⟩
          | (.ok refreshToken, w5) =>
            ⟨none,
              { userSession with
                  AccessToken := accessToken.Token
                  RefreshToken := refreshToken.Token },
              w5,
              [.Authenticate userSession.AccessToken,
               .FindClientByClientID userSession.ClientID,
               .ValidateRefreshToken userSession.RefreshToken client,
               .GrantAccessToken theRefreshToken.Client theRefreshToken.User
                 theRefreshToken.Scope,
               .GetOrCreateRefreshToken theRefreshToken.Client theRefreshToken.User
                 theRefreshToken.Scope]⟩

/-- The method `(*loggedInMiddleware).ServeHTTP`: the world it leaves and the
calls it makes, in order. -/
def loggedInMiddleware.ServeHTTP {W Client User : Type}
    (sessionService : SessionService W) (oauthService : OauthService W Client User)
    (r : Request) (w : W) : W × List (Event Client User) :=
  -- Attempt to start the session
  match sessionService.StartUserSession w with
  | (some err, w1) =>
    (w1, [.StartUserSession, .httpError err.Error StatusInternalServerError])
  | (none, w1) =>
    -- Try to get a user session
    match sessionService.GetUserSession w1 with
    | (.error _, w2) =>
      (w2, [.StartUserSession, .contextSetSessionService, .GetUserSession,
            redirectWithQueryString "/web/login" r.URLQuery])
    | (.ok userSession, w2) =>
      -- Authenticate
      let a := authenticate oauthService userSession w2
      match a.err with
      | some _ =>
        (a.world, [.StartUserSession, .contextSetSessionService, .GetUserSession]
          ++ a.calls ++ [redirectWithQueryString "/web/login" r.URLQuery])
      | none =>
        -- Update the user session
        let w3 := (sessionService.SetUserSession a.userSession a.world).2
        (w3, [.StartUserSession, .contextSetSessionService, .GetUserSession]
          ++ a.calls ++ [.SetUserSession a.userSession, .next])

/-- The method `(*guestMiddleware).ServeHTTP`. -/
def guestMiddleware.ServeHTTP {W Client User : Type}
    (sessionService : SessionService W) (w : W) : W × List (Event Client User) :=
  match sessionService.StartUserSession w with
  | (some err, w1) =>
    (w1, [.StartUserSession, .httpError err.Error StatusInternalServerError])
  | (none, w1) =>
    (w1, [.StartUserSession, .contextSetSessionService, .next])

/-- The method `(*clientMiddleware).ServeHTTP`. -/
def clientMiddleware.ServeHTTP {W Client User : Type}
    (oauthService : OauthService W Client User)
    (r : Request) (w : W) : W × List (Event Client User) :=
  -- Fetch the client
  match oauthService.FindClientByClientID (r.Form.Get "client_id") w with
  | (.error err, w1) =>
    (w1, [.FindClientByClientID (r.Form.Get "client_id"),
          .httpError err.Error StatusBadRequest])
  | (.ok client, w1) =>
    (w1, [.FindClientByClientID (r.Form.Get "client_id"),
          .contextSetClient client, .next])

/-! ## Observations on the calls -/

/-- Whether an event is a call of `sessionService.SetUserSession`. -/
def Event.isSetUserSession {Client User : Type} : Event Client User → Bool
  | .SetUserSession _ => true
  | _ => false

/-- Whether an event is the call of the `next` handler. -/
def Event.isNext {Client User : Type} : Event Client User → Bool
  | .next => true
  | _ => false

/-! ## Test doubles

Concrete collaborators on which the statements below are evaluated. Their
world is a counter of the calls served so far, or a store of refresh tokens. -/

/-- A token service in which only the access token `"good"` is valid, the only
client is `"c1"`, the refresh token `"r1"` belongs to `("c1", "userX",
"scopeY")`, and the issuer hands out `"new-a"` and `"new-r"`. -/
def scenarioService : OauthService Nat String String where
  Authenticate := fun tok w =>
    (if tok = "good" then none else some ⟨"access token not found"⟩, w + 1)
  FindClientByClientID := fun cid w =>
    (if cid = "c1" then .ok cid else .error ⟨"client not found"⟩, w + 1)
  ValidateRefreshToken := fun tok client w =>
    (if tok = "r1" ∧ client = "c1" then .ok ⟨client, "userX", "scopeY", tok⟩
     else .error ⟨"refresh token not found"⟩, w + 1)
  GrantAccessToken := fun _ _ scope w =>
    (if scope = "scopeY" then .ok ⟨"new-a"⟩ else .error ⟨"grant failed"⟩, w + 1)
  GetOrCreateRefreshToken := fun client user scope w =>
    (.ok ⟨client, user, scope, "new-r"⟩, w + 1)

/-- The record of the scenario: an expired access token and the refresh
token `"r1"`. -/
def expiredSession : UserSession := ⟨"c1", "expired", "r1"⟩

/-- A record with a currently valid access token. -/
def goodSession : UserSession := ⟨"c1", "good", "r1"⟩

/-- A record whose client is not in the directory. -/
def orphanSession : UserSession := ⟨"nobody", "expired", "r1"⟩

/-- A record whose refresh token is not accepted either. -/
def staleSession : UserSession := ⟨"c1", "expired", "revoked"⟩

/-- Modelled from the spec: the token service of the `oauth` package, whose
code is not part of `web/middleware.go`. The specification describes its
issuer as handing out "a (new-or-existing) refresh credential for the same
triple" and its validator as `validateRefreshToken(token, client)`. Here the
world is the store of live refresh tokens: `ValidateRefreshToken` accepts the
tokens of the store, and `GetOrCreateRefreshToken` returns the token the store
already holds for the client and user (existing), creating `"new-r"` only when
there is none (new). -/
def retrievingService : OauthService (List (RefreshToken String String)) String String where
  Authenticate := fun tok w =>
    (if tok = "good" then none else some ⟨"access token not found"⟩, w)
  FindClientByClientID := fun cid w =>
    (if cid = "c1" then .ok cid else .error ⟨"client not found"⟩, w)
  ValidateRefreshToken := fun tok client w =>
    (match w.find? (fun t => t.Token = tok ∧ t.Client = client) with
     | some t => .ok t
     | none => .error ⟨"refresh token not found"⟩, w)
  GrantAccessToken := fun _ _ _ w => (.ok ⟨"new-a"⟩, w)
  GetOrCreateRefreshToken := fun client user scope w =>
    match w.find? (fun t => t.Client = client ∧ t.User = user) with
    | some t => (.ok t, w)
    | none => (.ok ⟨client, user, scope, "new-r"⟩, ⟨client, user, scope, "new-r"⟩ :: w)

/-- The store in which `"r1"` is the live refresh token of `("c1", "userX")`. -/
def storeWithR1 : List (RefreshToken String String) := [⟨"c1", "userX", "scopeY", "r1"⟩]

/-- The scenario service with a directory that also holds a client whose
identifier is the empty string. -/
def blankClientService : OauthService Nat String String :=
  { scenarioService with
    FindClientByClientID := fun cid w =>
      (if cid = "" ∨ cid = "c1" then .ok cid else .error ⟨"client not found"⟩, w + 1) }

/-- A session service that starts and holds the given record, or no record. -/
def sessionsHolding (stored : Option UserSession) : SessionService Nat where
  StartUserSession := fun w => (none, w + 1)
  GetUserSession := fun w =>
    (match stored with
     | some u => .ok u
     | none => .error ⟨"user session not found"⟩, w + 1)
  SetUserSession := fun _ w => (none, w + 1)

/-- A request for a protected page with two query-string parameters. -/
def pageRequest : Request :=
  ⟨[("client_id", ["c1"]), ("state", ["xyz"])], "client_id=c1&state=xyz"⟩

/-- A request that carries no `client_id` parameter. -/
def bareRequest : Request := ⟨[("state", ["xyz"])], "state=xyz"⟩

/-- A request whose `client_id` names a client missing from the directory. -/
def strangerRequest : Request := ⟨[("client_id", ["nobody"])], "client_id=nobody"⟩

/-- A request whose query string names `state` before `client_id`. -/
def unsortedRequest : Request :=
  ⟨[("state", ["xyz"]), ("client_id", ["c1"])], "state=xyz&client_id=c1"⟩

/-- A request whose parameter `back` carries a broken escape, and whose
parameter `q` writes a space as `%20`. -/
def brokenEscapeRequest : Request :=
  ⟨[("state", ["xyz"]), ("q", ["a b"])], "state=xyz&back=%zz&q=a%20b"⟩

/-! ## `authenticate` -/

/-- The six ways a run of `authenticate` can go, each with the answers of the
oauth service that select it and the complete result of the run. -/
theorem authenticate_cases {W Client User : Type}
    (oauthService : OauthService W Client User) (userSession : UserSession) (w : W) :
    (∃ w1, oauthService.Authenticate userSession.AccessToken w = (none, w1)
      ∧ authenticate oauthService userSession w
          = ⟨none, userSession, w1, [.Authenticate userSession.AccessToken]⟩)
    ∨ (∃ e w1 err w2, oauthService.Authenticate userSession.AccessToken w = (some e, w1)
      ∧ oauthService.FindClientByClientID userSession.ClientID w1 = (.error err, w2)
      ∧ authenticate oauthService userSession w
          = ⟨some err, userSession, w2,
              [.Authenticate userSession.AccessToken,
               .FindClientByClientID userSession.ClientID]⟩)
    ∨ (∃ e w1 client w2 err w3,
      oauthService.Authenticate userSession.AccessToken w = (some e, w1)
      ∧ oauthService.FindClientByClientID userSession.ClientID w1 = (.ok client, w2)
      ∧ oauthService.ValidateRefreshToken userSession.RefreshToken client w2 = (.error err, w3)
      ∧ authenticate oauthService userSession w
          = ⟨some err, userSession, w3,
              [.Authenticate userSession.AccessToken,
               .FindClientByClientID userSession.ClientID,
               .ValidateRefreshToken userSession.RefreshToken client]⟩)
    ∨ (∃ e w1 client w2 t w3 err w4,
      oauthService.Authenticate userSession.AccessToken w = (some e, w1)
      ∧ oauthService.FindClientByClientID userSession.ClientID w1 = (.ok client, w2)
      ∧ oauthService.ValidateRefreshToken userSession.RefreshToken client w2 = (.ok t, w3)
      ∧ oauthService.GrantAccessToken t.Client t.User t.Scope w3 = (.error err, w4)
      ∧ authenticate oauthService userSession w
          = ⟨some err, userSession, w4,
              [.Authenticate userSession.AccessToken,
               .FindClientByClientID userSession.ClientID,
               .ValidateRefreshToken userSession.RefreshToken client,
               .GrantAccessToken t.Client t.User t.Scope]⟩)
    ∨ (∃ e w1 client w2 t w3 accessToken w4 err w5,
      oauthService.Authenticate userSession.AccessToken w = (some e, w1)
      ∧ oauthService.FindClientByClientID userSession.ClientID w1 = (.ok client, w2)
      ∧ oauthService.ValidateRefreshToken userSession.RefreshToken client w2 = (.ok t, w3)
      ∧ oauthService.GrantAccessToken t.Client t.User t.Scope w3 = (.ok accessToken, w4)
      ∧ oauthService.GetOrCreateRefreshToken t.Client t.User t.Scope w4 = (.error err, w5)
      ∧ authenticate oauthService userSession w
          = ⟨some err, userSession, w5,
              [.Authenticate userSession.AccessToken,
               .FindClientByClientID userSession.ClientID,
               .ValidateRefreshToken userSession.RefreshToken client,
               .GrantAccessToken t.Client t.User t.Scope,
               .GetOrCreateRefreshToken t.Client t.User t.Scope]⟩)
    ∨ (∃ e w1 client w2 t w3 accessToken w4 refreshToken w5,
      oauthService.Authenticate userSession.AccessToken w = (some e, w1)
      ∧ oauthService.FindClientByClientID userSession.ClientID w1 = (.ok client, w2)
      ∧ oauthService.ValidateRefreshToken userSession.RefreshToken client w2 = (.ok t, w3)
      ∧ oauthService.GrantAccessToken t.Client t.User t.Scope w3 = (.ok accessToken, w4)
      ∧ oauthService.GetOrCreateRefreshToken t.Client t.User t.Scope w4
          = (.ok refreshToken, w5)
      ∧ authenticate oauthService userSession w
          = ⟨none, ⟨userSession.ClientID, accessToken.Token, refreshToken.Token⟩, w5,
              [.Authenticate userSession.AccessToken,
               .FindClientByClientID userSession.ClientID,
               .ValidateRefreshToken userSession.RefreshToken client,
               .GrantAccessToken t.Client t.User t.Scope,
               .GetOrCreateRefreshToken t.Client t.User t.Scope]⟩) := by
  rcases hA : oauthService.Authenticate userSession.AccessToken w with ⟨_ | e, w1⟩
  · exact Or.inl ⟨w1, rfl, by simp [authenticate, hA]⟩
  refine Or.inr ?_
  rcases hC : oauthService.FindClientByClientID userSession.ClientID w1 with ⟨err | client, w2⟩
  · exact Or.inl ⟨e, w1, err, w2, rfl, hC, by simp [authenticate, hA, hC]⟩
  refine Or.inr ?_
  rcases hV : oauthService.ValidateRefreshToken userSession.RefreshToken client w2
    with ⟨err | t, w3⟩
  · exact Or.inl ⟨e, w1, client, w2, err, w3, rfl, hC, hV, by simp [authenticate, hA, hC, hV]⟩
  refine Or.inr ?_
  rcases hG : oauthService.GrantAccessToken t.Client t.User t.Scope w3 with ⟨err | a, w4⟩
  · exact Or.inl ⟨e, w1, client, w2, t, w3, err, w4, rfl, hC, hV, hG,
      by simp [authenticate, hA, hC, hV, hG]⟩
  refine Or.inr ?_
  rcases hR : oauthService.GetOrCreateRefreshToken t.Client t.User t.Scope w4
    with ⟨err | n, w5⟩
  · exact Or.inl ⟨e, w1, client, w2, t, w3, a, w4, err, w5, rfl, hC, hV, hG, hR,
      by simp [authenticate, hA, hC, hV, hG, hR]⟩
  · exact Or.inr ⟨e, w1, client, w2, t, w3, a, w4, n, w5, rfl, hC, hV, hG, hR,
      by simp [authenticate, hA, hC, hV, hG, hR]⟩

/-- C1: when `oauthService.Authenticate` accepts the access token of the
record, `authenticate` returns `nil`, leaves the whole record (so `ClientID`,
`AccessToken` and `RefreshToken`) as it was, and its only call on the oauth
service is that `Authenticate`: no `FindClientByClientID`,
`ValidateRefreshToken`, `GrantAccessToken` or `GetOrCreateRefreshToken`. -/
theorem authenticate_valid_access_token {W Client User : Type}
    (oauthService : OauthService W Client User) (userSession : UserSession) (w : W)
    (hvalid : (oauthService.Authenticate userSession.AccessToken w).1 = none) :
    (authenticate oauthService userSession w).err = none
    ∧ (authenticate oauthService userSession w).userSession = userSession
    ∧ (authenticate oauthService userSession w).calls
        = [Event.Authenticate userSession.AccessToken]
    ∧ (∀ clientID, Event.FindClientByClientID clientID
        ∉ (authenticate oauthService userSession w).calls)
    ∧ (∀ token client, Event.ValidateRefreshToken token client
        ∉ (authenticate oauthService userSession w).calls)
    ∧ (∀ client user scope, Event.GrantAccessToken client user scope
        ∉ (authenticate oauthService userSession w).calls)
    ∧ (∀ client user scope, Event.GetOrCreateRefreshToken client user scope
        ∉ (authenticate oauthService userSession w).calls)
    ∧ (authenticate oauthService userSession w).world
        = (oauthService.Authenticate userSession.AccessToken w).2 := by
  rcases hA : oauthService.Authenticate userSession.AccessToken w with ⟨e, w1⟩
  rw [hA] at hvalid
  simp only at hvalid
  subst hvalid
  simp [authenticate, hA]

/-- Witness of C1 on the record with the access token `"good"`. -/
theorem authenticate_valid_access_token_witness :
    (authenticate scenarioService goodSession 0).err = none
    ∧ (authenticate scenarioService goodSession 0).userSession = goodSession
    ∧ (authenticate scenarioService goodSession 0).calls = [Event.Authenticate "good"] :=
  have h := authenticate_valid_access_token scenarioService goodSession 0 (by decide)
  ⟨h.1, h.2.1, h.2.2.1⟩

/-- C2: when the access token is rejected, the `ClientID` of the record
resolves to a client, the refresh token validates against that client, and
`GrantAccessToken` and `GetOrCreateRefreshToken` both succeed on the triple of
the validated refresh token, `authenticate` returns `nil` and the record then
holds the token of the granted access token, the token of the returned
refresh token, and the `ClientID` it had. -/
theorem authenticate_refresh_success {W Client User : Type}
    (oauthService : OauthService W Client User) (userSession : UserSession) (w : W)
    (e : GoError) (w1 w2 w3 w4 w5 : W) (client : Client)
    (theRefreshToken refreshToken : RefreshToken Client User) (accessToken : AccessToken)
    (hA : oauthService.Authenticate userSession.AccessToken w = (some e, w1))
    (hC : oauthService.FindClientByClientID userSession.ClientID w1 = (.ok client, w2))
    (hV : oauthService.ValidateRefreshToken userSession.RefreshToken client w2
            = (.ok theRefreshToken, w3))
    (hG : oauthService.GrantAccessToken theRefreshToken.Client theRefreshToken.User
            theRefreshToken.Scope w3 = (.ok accessToken, w4))
    (hR : oauthService.GetOrCreateRefreshToken theRefreshToken.Client theRefreshToken.User
            theRefreshToken.Scope w4 = (.ok refreshToken, w5)) :
    (authenticate oauthService userSession w).err = none
    ∧ (authenticate oauthService userSession w).userSession
        = ⟨userSession.ClientID, accessToken.Token, refreshToken.Token⟩ := by
  simp [authenticate, hA, hC, hV, hG, hR]

/-- Witness of C2, the scenario of the specification: the record
`{c1, "expired", "r1"}` becomes `{c1, "new-a", "new-r"}`. -/
theorem authenticate_refresh_success_witness :
    (authenticate scenarioService expiredSession 0).err = none
    ∧ (authenticate scenarioService expiredSession 0).userSession
        = ⟨"c1", "new-a", "new-r"⟩ :=
  authenticate_refresh_success scenarioService expiredSession 0
    ⟨"access token not found"⟩ 1 2 3 4 5 "c1" ⟨"c1", "userX", "scopeY", "r1"⟩
    ⟨"c1", "userX", "scopeY", "new-r"⟩ ⟨"new-a"⟩ (by decide) rfl rfl rfl rfl

/-- C3: whenever `authenticate` returns an error, whatever the oauth service
does, the record is exactly the one passed in. Moreover every run leaves the
record either untouched, or (returning `nil`) with `AccessToken` and
`RefreshToken` overwritten together by the tokens that a successful
`GrantAccessToken` and a successful `GetOrCreateRefreshToken` returned: the
access token is never replaced alone. -/
theorem authenticate_error_keeps_record {W Client User : Type}
    (oauthService : OauthService W Client User) (userSession : UserSession) (w : W) :
    ((authenticate oauthService userSession w).err ≠ none →
      (authenticate oauthService userSession w).userSession = userSession)
    ∧ ((authenticate oauthService userSession w).userSession = userSession
      ∨ ∃ (t : RefreshToken Client User) (accessToken : AccessToken)
          (refreshToken : RefreshToken Client User) (w3 w4 w5 : W),
          oauthService.GrantAccessToken t.Client t.User t.Scope w3 = (.ok accessToken, w4)
          ∧ oauthService.GetOrCreateRefreshToken t.Client t.User t.Scope w4
              = (.ok refreshToken, w5)
          ∧ (authenticate oauthService userSession w).err = none
          ∧ (authenticate oauthService userSession w).userSession
              = ⟨userSession.ClientID, accessToken.Token, refreshToken.Token⟩) := by
  rcases authenticate_cases oauthService userSession w with
    ⟨w1, _, h⟩ | ⟨e, w1, err, w2, _, _, h⟩ | ⟨e, w1, c, w2, err, w3, _, _, _, h⟩
    | ⟨e, w1, c, w2, t, w3, err, w4, _, _, _, _, h⟩
    | ⟨e, w1, c, w2, t, w3, a, w4, err, w5, _, _, _, _, _, h⟩
    | ⟨e, w1, c, w2, t, w3, a, w4, n, w5, _, _, _, hG, hR, h⟩
  · simp [h]
  · simp [h]
  · simp [h]
  · simp [h]
  · simp [h]
  · refine ⟨by simp [h], Or.inr ⟨t, a, n, w3, w4, w5, hG, hR, by simp [h], by simp [h]⟩⟩

/-- Witness of C3 on a record whose access and refresh tokens are both
rejected. -/
theorem authenticate_error_keeps_record_witness :
    (authenticate scenarioService staleSession 0).err ≠ none
    ∧ (authenticate scenarioService staleSession 0).userSession = staleSession :=
  ⟨by decide, (authenticate_error_keeps_record scenarioService staleSession 0).1 (by decide)⟩

/-- C4: `authenticate` returns `nil` exactly when `Authenticate` accepts the
access token, or the four calls `FindClientByClientID` (on the `ClientID` of
the record), `ValidateRefreshToken`, `GrantAccessToken` and
`GetOrCreateRefreshToken` all succeed one after the other; and when the access
token is rejected, the failure of any one of the four makes `authenticate`
return that error. -/
theorem authenticate_success_iff {W Client User : Type}
    (oauthService : OauthService W Client User) (userSession : UserSession) (w : W) :
    ((authenticate oauthService userSession w).err = none ↔
      (oauthService.Authenticate userSession.AccessToken w).1 = none
      ∨ ∃ client w2 t w3 accessToken w4 refreshToken w5,
          oauthService.FindClientByClientID userSession.ClientID
              (oauthService.Authenticate userSession.AccessToken w).2 = (.ok client, w2)
          ∧ oauthService.ValidateRefreshToken userSession.RefreshToken client w2 = (.ok t, w3)
          ∧ oauthService.GrantAccessToken t.Client t.User t.Scope w3 = (.ok accessToken, w4)
          ∧ oauthService.GetOrCreateRefreshToken t.Client t.User t.Scope w4
              = (.ok refreshToken, w5))
    ∧ (∀ e w1, oauthService.Authenticate userSession.AccessToken w = (some e, w1) →
        (∀ err w2,
          oauthService.FindClientByClientID userSession.ClientID w1 = (.error err, w2) →
          (authenticate oauthService userSession w).err = some err)
        ∧ (∀ client w2, oauthService.FindClientByClientID userSession.ClientID w1
              = (.ok client, w2) →
          (∀ err w3, oauthService.ValidateRefreshToken userSession.RefreshToken client w2
              = (.error err, w3) →
            (authenticate oauthService userSession w).err = some err)
          ∧ (∀ t w3, oauthService.ValidateRefreshToken userSession.RefreshToken client w2
                = (.ok t, w3) →
            (∀ err w4, oauthService.GrantAccessToken t.Client t.User t.Scope w3
                = (.error err, w4) →
              (authenticate oauthService userSession w).err = some err)
            ∧ (∀ accessToken w4, oauthService.GrantAccessToken t.Client t.User t.Scope w3
                  = (.ok accessToken, w4) →
              ∀ err w5, oauthService.GetOrCreateRefreshToken t.Client t.User t.Scope w4
                  = (.error err, w5) →
                (authenticate oauthService userSession w).err = some err)))) := by
  constructor
  · rcases authenticate_cases oauthService userSession w with
      ⟨w1, hA, h⟩ | ⟨e, w1, err, w2, hA, hC, h⟩ | ⟨e, w1, c, w2, err, w3, hA, hC, hV, h⟩
      | ⟨e, w1, c, w2, t, w3, err, w4, hA, hC, hV, hG, h⟩
      | ⟨e, w1, c, w2, t, w3, a, w4, err, w5, hA, hC, hV, hG, hR, h⟩
      | ⟨e, w1, c, w2, t, w3, a, w4, n, w5, hA, hC, hV, hG, hR, h⟩
    · simp [h, hA]
    · simp [h, hA, hC]
    · simp [h, hA, hC, hV]
    · simp [h, hA, hC, hV, hG]
    · simp [h, hA, hC, hV, hG, hR]
    · simp only [h, hA, true_iff]
      exact Or.inr ⟨c, w2, t, w3, a, w4, n, w5, hC, hV, hG, hR⟩
  · intro e w1 hA
    refine ⟨fun err w2 hC => by simp [authenticate, hA, hC], fun client w2 hC => ?_⟩
    refine ⟨fun err w3 hV => by simp [authenticate, hA, hC, hV], fun t w3 hV => ?_⟩
    refine ⟨fun err w4 hG => by simp [authenticate, hA, hC, hV, hG], fun a w4 hG => ?_⟩
    intro err w5 hR
    simp [authenticate, hA, hC, hV, hG, hR]

/-- C5: when the access token is rejected and `FindClientByClientID` fails on
the `ClientID` of the record, `authenticate` returns that very error and leaves
the record as it was, and its calls are `Authenticate` then
`FindClientByClientID` only: `ValidateRefreshToken`, `GrantAccessToken` and
`GetOrCreateRefreshToken` are not called, whatever they would have answered. -/
theorem authenticate_unknown_client {W Client User : Type}
    (oauthService : OauthService W Client User) (userSession : UserSession) (w : W)
    (e err : GoError) (w1 w2 : W)
    (hA : oauthService.Authenticate userSession.AccessToken w = (some e, w1))
    (hC : oauthService.FindClientByClientID userSession.ClientID w1 = (.error err, w2)) :
    (authenticate oauthService userSession w).err = some err
    ∧ (authenticate oauthService userSession w).userSession = userSession
    ∧ (authenticate oauthService userSession w).calls
        = [Event.Authenticate userSession.AccessToken,
           Event.FindClientByClientID userSession.ClientID]
    ∧ (∀ token client, Event.ValidateRefreshToken token client
        ∉ (authenticate oauthService userSession w).calls)
    ∧ (∀ client user scope, Event.GrantAccessToken client user scope
        ∉ (authenticate oauthService userSession w).calls)
    ∧ (∀ client user scope, Event.GetOrCreateRefreshToken client user scope
        ∉ (authenticate oauthService userSession w).calls)
    ∧ (authenticate oauthService userSession w).world = w2 := by
  simp [authenticate, hA, hC]

/-- Witness of C5: the record of the unknown client `"nobody"` carries the
refresh token `"r1"`, which the service validates for the client `"c1"`; the
run still ends at the failed lookup. -/
theorem authenticate_unknown_client_witness :
    (scenarioService.ValidateRefreshToken orphanSession.RefreshToken "c1" 2).1
        = .ok ⟨"c1", "userX", "scopeY", "r1"⟩
    ∧ (authenticate scenarioService orphanSession 0).err = some ⟨"client not found"⟩
    ∧ (authenticate scenarioService orphanSession 0).userSession = orphanSession
    ∧ (authenticate scenarioService orphanSession 0).calls
        = [Event.Authenticate "expired", Event.FindClientByClientID "nobody"] :=
  have h := authenticate_unknown_client scenarioService orphanSession 0
    ⟨"access token not found"⟩ ⟨"client not found"⟩ 1 2 (by decide) rfl
  ⟨rfl, h.1, h.2.1, h.2.2.1⟩

/-- C10: the calls of one run of `authenticate` are, in this order,
`Authenticate` on the access token of the record, `FindClientByClientID` on its
`ClientID`, `ValidateRefreshToken` on its refresh token and the client found,
`GrantAccessToken` and then `GetOrCreateRefreshToken` on the client, user and
scope of the validated refresh token; the run ends after `Authenticate` when it
accepts, and otherwise at the first failing call; no call occurs twice; and
the record differs from the one passed in only when all five calls were made
and `GetOrCreateRefreshToken` succeeded. -/
theorem authenticate_call_sequence {W Client User : Type}
    (oauthService : OauthService W Client User) (userSession : UserSession) (w : W) :
    ((∃ w1, oauthService.Authenticate userSession.AccessToken w = (none, w1)
        ∧ (authenticate oauthService userSession w).calls
            = [Event.Authenticate userSession.AccessToken])
      ∨ (∃ e w1 err w2, oauthService.Authenticate userSession.AccessToken w = (some e, w1)
        ∧ oauthService.FindClientByClientID userSession.ClientID w1 = (.error err, w2)
        ∧ (authenticate oauthService userSession w).calls
            = [Event.Authenticate userSession.AccessToken,
               Event.FindClientByClientID userSession.ClientID])
      ∨ (∃ e w1 client w2 err w3,
        oauthService.Authenticate userSession.AccessToken w = (some e, w1)
        ∧ oauthService.FindClientByClientID userSession.ClientID w1 = (.ok client, w2)
        ∧ oauthService.ValidateRefreshToken userSession.RefreshToken client w2
            = (.error err, w3)
        ∧ (authenticate oauthService userSession w).calls
            = [Event.Authenticate userSession.AccessToken,
               Event.FindClientByClientID userSession.ClientID,
               Event.ValidateRefreshToken userSession.RefreshToken client])
      ∨ (∃ e w1 client w2 t w3 err w4,
        oauthService.Authenticate userSession.AccessToken w = (some e, w1)
        ∧ oauthService.FindClientByClientID userSession.ClientID w1 = (.ok client, w2)
        ∧ oauthService.ValidateRefreshToken userSession.RefreshToken client w2 = (.ok t, w3)
        ∧ oauthService.GrantAccessToken t.Client t.User t.Scope w3 = (.error err, w4)
        ∧ (authenticate oauthService userSession w).calls
            = [Event.Authenticate userSession.AccessToken,
               Event.FindClientByClientID userSession.ClientID,
               Event.ValidateRefreshToken userSession.RefreshToken client,
               Event.GrantAccessToken t.Client t.User t.Scope])
      ∨ (∃ e w1 client w2 t w3 accessToken w4 result w5,
        oauthService.Authenticate userSession.AccessToken w = (some e, w1)
        ∧ oauthService.FindClientByClientID userSession.ClientID w1 = (.ok client, w2)
        ∧ oauthService.ValidateRefreshToken userSession.RefreshToken client w2 = (.ok t, w3)
        ∧ oauthService.GrantAccessToken t.Client t.User t.Scope w3 = (.ok accessToken, w4)
        ∧ oauthService.GetOrCreateRefreshToken t.Client t.User t.Scope w4 = (result, w5)
        ∧ (authenticate oauthService userSession w).calls
            = [Event.Authenticate userSession.AccessToken,
               Event.FindClientByClientID userSession.ClientID,
               Event.ValidateRefreshToken userSession.RefreshToken client,
               Event.GrantAccessToken t.Client t.User t.Scope,
               Event.GetOrCreateRefreshToken t.Client t.User t.Scope]))
    ∧ (∀ client w2 t w3,
        oauthService.FindClientByClientID userSession.ClientID
            (oauthService.Authenticate userSession.AccessToken w).2 = (.ok client, w2) →
        oauthService.ValidateRefreshToken userSession.RefreshToken client w2 = (.ok t, w3) →
        (authenticate oauthService userSession w).calls
          <+: [Event.Authenticate userSession.AccessToken,
               Event.FindClientByClientID userSession.ClientID,
               Event.ValidateRefreshToken userSession.RefreshToken client,
               Event.GrantAccessToken t.Client t.User t.Scope,
               Event.GetOrCreateRefreshToken t.Client t.User t.Scope])
    ∧ (authenticate oauthService userSession w).calls.Nodup
    ∧ ((authenticate oauthService userSession w).userSession ≠ userSession →
        ∃ (client : Client) (t : RefreshToken Client User)
          (refreshToken : RefreshToken Client User) (w4 w5 : W),
          oauthService.GetOrCreateRefreshToken t.Client t.User t.Scope w4
            = (.ok refreshToken, w5)
          ∧ (authenticate oauthService userSession w).calls
              = [Event.Authenticate userSession.AccessToken,
                 Event.FindClientByClientID userSession.ClientID,
                 Event.ValidateRefreshToken userSession.RefreshToken client,
                 Event.GrantAccessToken t.Client t.User t.Scope,
                 Event.GetOrCreateRefreshToken t.Client t.User t.Scope]) := by
  rcases authenticate_cases oauthService userSession w with
    ⟨w1, hA, h⟩ | ⟨e, w1, err, w2, hA, hC, h⟩ | ⟨e, w1, c, w2, err, w3, hA, hC, hV, h⟩
    | ⟨e, w1, c, w2, t, w3, err, w4, hA, hC, hV, hG, h⟩
    | ⟨e, w1, c, w2, t, w3, a, w4, err, w5, hA, hC, hV, hG, hR, h⟩
    | ⟨e, w1, c, w2, t, w3, a, w4, n, w5, hA, hC, hV, hG, hR, h⟩
  · refine ⟨Or.inl ⟨w1, hA, by simp [h]⟩, ?_, by simp [h], by simp [h]⟩
    intro client w2 t w3 _ _
    simp [h, List.prefix_cons_inj, List.nil_prefix]
  · refine ⟨Or.inr (Or.inl ⟨e, w1, err, w2, hA, hC, by simp [h]⟩), ?_, by simp [h],
      by simp [h]⟩
    intro client w2' t w3 hC' _
    simp [hA, hC] at hC'
  · refine ⟨Or.inr (Or.inr (Or.inl ⟨e, w1, c, w2, err, w3, hA, hC, hV, by simp [h]⟩)), ?_,
      by simp [h], by simp [h]⟩
    intro client w2' t w3' hC' hV'
    simp only [hA, hC, Prod.mk.injEq, Except.ok.injEq] at hC'
    obtain ⟨rfl, rfl⟩ := hC'
    simp [hV] at hV'
  · refine ⟨Or.inr (Or.inr (Or.inr (Or.inl
      ⟨e, w1, c, w2, t, w3, err, w4, hA, hC, hV, hG, by simp [h]⟩))), ?_,
      by simp [h], by simp [h]⟩
    intro client w2' t' w3' hC' hV'
    simp only [hA, hC, Prod.mk.injEq, Except.ok.injEq] at hC'
    obtain ⟨rfl, rfl⟩ := hC'
    simp only [hV, Prod.mk.injEq, Except.ok.injEq] at hV'
    obtain ⟨rfl, rfl⟩ := hV'
    simp [h, List.prefix_cons_inj, List.nil_prefix]
  · refine ⟨Or.inr (Or.inr (Or.inr (Or.inr
      ⟨e, w1, c, w2, t, w3, a, w4, .error err, w5, hA, hC, hV, hG, hR, by simp [h]⟩))), ?_,
      by simp [h], by simp [h]⟩
    intro client w2' t' w3' hC' hV'
    simp only [hA, hC, Prod.mk.injEq, Except.ok.injEq] at hC'
    obtain ⟨rfl, rfl⟩ := hC'
    simp only [hV, Prod.mk.injEq, Except.ok.injEq] at hV'
    obtain ⟨rfl, rfl⟩ := hV'
    simp [h]
  · refine ⟨Or.inr (Or.inr (Or.inr (Or.inr
      ⟨e, w1, c, w2, t, w3, a, w4, .ok n, w5, hA, hC, hV, hG, hR, by simp [h]⟩))), ?_,
      by simp [h], fun _ => ⟨c, t, n, w4, w5, hR, by simp [h]⟩⟩
    intro client w2' t' w3' hC' hV'
    simp only [hA, hC, Prod.mk.injEq, Except.ok.injEq] at hC'
    obtain ⟨rfl, rfl⟩ := hC'
    simp only [hV, Prod.mk.injEq, Except.ok.injEq] at hV'
    obtain ⟨rfl, rfl⟩ := hV'
    simp [h]

/-- The old refresh token survives a refresh (against C8): with a token
service whose `GetOrCreateRefreshToken` retrieves the live token, the record
`{c1, "expired", "r1"}` has a rejected access token and a valid refresh token,
`authenticate` returns `nil`, the record still carries `"r1"`, validating
`"r1"` again in the world the run left succeeds, and so does a second run of
`authenticate` on the old record. -/
theorem refresh_token_replay_accepted :
    (retrievingService.Authenticate expiredSession.AccessToken storeWithR1).1 ≠ none
    ∧ (retrievingService.ValidateRefreshToken expiredSession.RefreshToken "c1" storeWithR1).1
        = .ok ⟨"c1", "userX", "scopeY", "r1"⟩
    ∧ (authenticate retrievingService expiredSession storeWithR1).err = none
    ∧ (authenticate retrievingService expiredSession storeWithR1).userSession
        = ⟨"c1", "new-a", "r1"⟩
    ∧ (retrievingService.ValidateRefreshToken expiredSession.RefreshToken "c1"
        (authenticate retrievingService expiredSession storeWithR1).world).1
        = .ok ⟨"c1", "userX", "scopeY", "r1"⟩
    ∧ (authenticate retrievingService expiredSession
        (authenticate retrievingService expiredSession storeWithR1).world).err = none :=
  ⟨by decide, rfl, rfl, rfl, rfl, rfl⟩

/-- C8, amended: when the access token is rejected, the refresh token
validates and both issuing calls succeed, `authenticate` returns `nil` with
`AccessToken` overwritten by the granted token and `RefreshToken` by the token
`GetOrCreateRefreshToken` returned; its calls are the five calls of the refresh
chain and nothing else, and the world it leaves is the one
`GetOrCreateRefreshToken` left, so a later validation of the old refresh token
is answered by the token service in exactly that world. -/
theorem authenticate_refresh_installs_issued_tokens {W Client User : Type}
    (oauthService : OauthService W Client User) (userSession : UserSession) (w : W)
    (e : GoError) (w1 w2 w3 w4 w5 : W) (client : Client)
    (theRefreshToken refreshToken : RefreshToken Client User) (accessToken : AccessToken)
    (hA : oauthService.Authenticate userSession.AccessToken w = (some e, w1))
    (hC : oauthService.FindClientByClientID userSession.ClientID w1 = (.ok client, w2))
    (hV : oauthService.ValidateRefreshToken userSession.RefreshToken client w2
            = (.ok theRefreshToken, w3))
    (hG : oauthService.GrantAccessToken theRefreshToken.Client theRefreshToken.User
            theRefreshToken.Scope w3 = (.ok accessToken, w4))
    (hR : oauthService.GetOrCreateRefreshToken theRefreshToken.Client theRefreshToken.User
            theRefreshToken.Scope w4 = (.ok refreshToken, w5)) :
    (authenticate oauthService userSession w).err = none
    ∧ (authenticate oauthService userSession w).userSession.AccessToken = accessToken.Token
    ∧ (authenticate oauthService userSession w).userSession.RefreshToken = refreshToken.Token
    ∧ (authenticate oauthService userSession w).calls
        = [Event.Authenticate userSession.AccessToken,
           Event.FindClientByClientID userSession.ClientID,
           Event.ValidateRefreshToken userSession.RefreshToken client,
           Event.GrantAccessToken theRefreshToken.Client theRefreshToken.User
             theRefreshToken.Scope,
           Event.GetOrCreateRefreshToken theRefreshToken.Client theRefreshToken.User
             theRefreshToken.Scope]
    ∧ (authenticate oauthService userSession w).world = w5
    ∧ oauthService.ValidateRefreshToken userSession.RefreshToken client
          (authenticate oauthService userSession w).world
        = oauthService.ValidateRefreshToken userSession.RefreshToken client w5 := by
  simp [authenticate, hA, hC, hV, hG, hR]

/-- Witness of the amended C8 on the token service that retrieves the live
refresh token. -/
theorem authenticate_refresh_installs_issued_tokens_witness :
    (authenticate retrievingService expiredSession storeWithR1).err = none
    ∧ (authenticate retrievingService expiredSession storeWithR1).userSession.AccessToken
        = "new-a"
    ∧ (authenticate retrievingService expiredSession storeWithR1).userSession.RefreshToken
        = "r1"
    ∧ (authenticate retrievingService expiredSession storeWithR1).world = storeWithR1 :=
  have h := authenticate_refresh_installs_issued_tokens retrievingService expiredSession
    storeWithR1 ⟨"access token not found"⟩ storeWithR1 storeWithR1 storeWithR1 storeWithR1
    storeWithR1 "c1" ⟨"c1", "userX", "scopeY", "r1"⟩ ⟨"c1", "userX", "scopeY", "r1"⟩
    ⟨"new-a"⟩ (by decide) rfl rfl rfl rfl
  ⟨h.1, h.2.1, h.2.2.1, h.2.2.2.2.1⟩

/-- The calls of `authenticate` go to the oauth service only: none of them is
`SetUserSession` or `next`. -/
theorem authenticate_calls_countP {W Client User : Type}
    (oauthService : OauthService W Client User) (userSession : UserSession) (w : W) :
    (authenticate oauthService userSession w).calls.countP Event.isSetUserSession = 0
    ∧ (authenticate oauthService userSession w).calls.countP Event.isNext = 0 := by
  rcases authenticate_cases oauthService userSession w with
    ⟨w1, _, h⟩ | ⟨e, w1, err, w2, _, _, h⟩ | ⟨e, w1, c, w2, err, w3, _, _, _, h⟩
    | ⟨e, w1, c, w2, t, w3, err, w4, _, _, _, _, h⟩
    | ⟨e, w1, c, w2, t, w3, a, w4, err, w5, _, _, _, _, _, h⟩
    | ⟨e, w1, c, w2, t, w3, a, w4, n, w5, _, _, _, _, _, h⟩ <;>
  simp [h, List.countP_cons, Event.isSetUserSession, Event.isNext]

/-! ## `loggedInMiddleware` -/

/-- C6: `loggedInMiddleware` calls `next` exactly when `StartUserSession`,
`GetUserSession` and `authenticate` all succeed. Then its calls are the session
start and lookup, the calls of `authenticate`, one `SetUserSession` on the
record `authenticate` left, and `next` last: `SetUserSession` and `next` occur
once each. In every other run, in particular when the session is absent or
`authenticate` fails, neither `SetUserSession` nor `next` is called. -/
theorem loggedInMiddleware_admits_iff {W Client User : Type}
    (sessionService : SessionService W) (oauthService : OauthService W Client User)
    (r : Request) (w : W) :
    (Event.next ∈ (loggedInMiddleware.ServeHTTP sessionService oauthService r w).2 ↔
      ∃ w1 userSession w2, sessionService.StartUserSession w = (none, w1)
        ∧ sessionService.GetUserSession w1 = (.ok userSession, w2)
        ∧ (authenticate oauthService userSession w2).err = none)
    ∧ (∀ w1 userSession w2, sessionService.StartUserSession w = (none, w1) →
        sessionService.GetUserSession w1 = (.ok userSession, w2) →
        (authenticate oauthService userSession w2).err = none →
        (loggedInMiddleware.ServeHTTP sessionService oauthService r w).2
          = [Event.StartUserSession, Event.contextSetSessionService, Event.GetUserSession]
            ++ (authenticate oauthService userSession w2).calls
            ++ [Event.SetUserSession (authenticate oauthService userSession w2).userSession,
                Event.next]
        ∧ (loggedInMiddleware.ServeHTTP sessionService oauthService r w).2.countP
            Event.isSetUserSession = 1
        ∧ (loggedInMiddleware.ServeHTTP sessionService oauthService r w).2.countP
            Event.isNext = 1)
    ∧ (Event.next ∉ (loggedInMiddleware.ServeHTTP sessionService oauthService r w).2 →
        (loggedInMiddleware.ServeHTTP sessionService oauthService r w).2.countP
            Event.isSetUserSession = 0
        ∧ (loggedInMiddleware.ServeHTTP sessionService oauthService r w).2.countP
            Event.isNext = 0)
    ∧ (∀ w1 err w2, sessionService.StartUserSession w = (none, w1) →
        sessionService.GetUserSession w1 = (.error err, w2) →
        (loggedInMiddleware.ServeHTTP sessionService oauthService r w).2.countP
            Event.isSetUserSession = 0
        ∧ (loggedInMiddleware.ServeHTTP sessionService oauthService r w).2.countP
            Event.isNext = 0)
    ∧ (∀ w1 userSession w2, sessionService.StartUserSession w = (none, w1) →
        sessionService.GetUserSession w1 = (.ok userSession, w2) →
        (authenticate oauthService userSession w2).err ≠ none →
        (loggedInMiddleware.ServeHTTP sessionService oauthService r w).2.countP
            Event.isSetUserSession = 0
        ∧ (loggedInMiddleware.ServeHTTP sessionService oauthService r w).2.countP
            Event.isNext = 0) := by
  have hnext : ∀ (u : UserSession) (w2 : W),
      Event.next ∉ (authenticate oauthService u w2).calls := by
    intro u w2 hmem
    have h0 := (authenticate_calls_countP oauthService u w2).2
    rw [List.countP_eq_zero] at h0
    exact absurd rfl (h0 _ hmem)
  obtain ⟨url, code, hr⟩ : ∃ url code,
      (redirectWithQueryString "/web/login" r.URLQuery : Event Client User)
        = Event.httpRedirect url code := ⟨_, _, rfl⟩
  rcases hS : sessionService.StartUserSession w with ⟨_ | err, w1⟩
  · rcases hG : sessionService.GetUserSession w1 with ⟨err | u, w2⟩
    · have hev : (loggedInMiddleware.ServeHTTP sessionService oauthService r w).2
          = [Event.StartUserSession, Event.contextSetSessionService, Event.GetUserSession,
             Event.httpRedirect url code] := by
        simp [loggedInMiddleware.ServeHTTP, hS, hG, hr]
      rw [hev]
      refine ⟨?_, ?_, ?_, ?_, ?_⟩
      · simp only [List.mem_cons, List.mem_singleton, reduceCtorEq, or_self, false_iff,
          not_exists, List.not_mem_nil]
        rintro w1' u w2' ⟨h1, hG', _⟩
        simp only [Prod.mk.injEq, true_and] at h1
        subst h1
        simp [hG] at hG'
      · rintro w1' u w2' h1 hG' _
        simp only [Prod.mk.injEq, true_and] at h1
        subst h1
        simp [hG] at hG'
      · intro _
        simp [List.countP_cons, Event.isSetUserSession, Event.isNext]
      · intro _ _ _ _ _
        simp [List.countP_cons, Event.isSetUserSession, Event.isNext]
      · intro _ _ _ _ _ _
        simp [List.countP_cons, Event.isSetUserSession, Event.isNext]
    · have hc := authenticate_calls_countP oauthService u w2
      have hsame : ∀ (w1' : W) (u' : UserSession) (w2' : W),
          (none, w1) = ((none : Option GoError), w1') →
          sessionService.GetUserSession w1' = (.ok u', w2') → u = u' ∧ w2 = w2' := by
        intro w1' u' w2' h1 hG'
        simp only [Prod.mk.injEq, true_and] at h1
        subst h1
        simpa [hG] using hG'
      rcases hE : (authenticate oauthService u w2).err with _ | err
      · have hev : (loggedInMiddleware.ServeHTTP sessionService oauthService r w).2
            = [Event.StartUserSession, Event.contextSetSessionService, Event.GetUserSession]
              ++ (authenticate oauthService u w2).calls
              ++ [Event.SetUserSession (authenticate oauthService u w2).userSession,
                  Event.next] := by
          simp [loggedInMiddleware.ServeHTTP, hS, hG, hE]
        have hcnt : (loggedInMiddleware.ServeHTTP sessionService oauthService r w).2.countP
              Event.isSetUserSession = 1
            ∧ (loggedInMiddleware.ServeHTTP sessionService oauthService r w).2.countP
              Event.isNext = 1 := by
          rw [hev]
          simp [List.countP_cons, List.countP_append, Event.isSetUserSession, Event.isNext,
            hc.1, hc.2]
        have hmem : Event.next
            ∈ (loggedInMiddleware.ServeHTTP sessionService oauthService r w).2 := by
          rw [hev]; simp
        refine ⟨⟨fun _ => ⟨w1, u, w2, rfl, hG, hE⟩, fun _ => hmem⟩, ?_,
          fun h => absurd hmem h, ?_, ?_⟩
        · intro w1' u' w2' h1 hG' _
          obtain ⟨rfl, rfl⟩ := hsame w1' u' w2' h1 hG'
          exact ⟨hev, hcnt⟩
        · intro w1' err w2' h1 hG'
          simp only [Prod.mk.injEq, true_and] at h1
          subst h1
          simp [hG] at hG'
        · intro w1' u' w2' h1 hG' hne
          obtain ⟨rfl, rfl⟩ := hsame w1' u' w2' h1 hG'
          exact absurd hE hne
      · have hev : (loggedInMiddleware.ServeHTTP sessionService oauthService r w).2
            = [Event.StartUserSession, Event.contextSetSessionService, Event.GetUserSession]
              ++ (authenticate oauthService u w2).calls
              ++ [Event.httpRedirect url code] := by
          simp [loggedInMiddleware.ServeHTTP, hS, hG, hE, hr]
        have hcnt : (loggedInMiddleware.ServeHTTP sessionService oauthService r w).2.countP
              Event.isSetUserSession = 0
            ∧ (loggedInMiddleware.ServeHTTP sessionService oauthService r w).2.countP
              Event.isNext = 0 := by
          rw [hev]
          simp [List.countP_cons, List.countP_append, Event.isSetUserSession, Event.isNext,
            hc.1, hc.2]
        have hnot : Event.next
            ∉ (loggedInMiddleware.ServeHTTP sessionService oauthService r w).2 := by
          rw [hev]; simp [hnext u w2]
        refine ⟨⟨fun h => absurd h hnot, ?_⟩, ?_, fun _ => hcnt, fun _ _ _ _ _ => hcnt,
          fun _ _ _ _ _ _ => hcnt⟩
        · rintro ⟨w1', u', w2', h1, hG', hok⟩
          obtain ⟨rfl, rfl⟩ := hsame w1' u' w2' h1 hG'
          simp [hE] at hok
        · intro w1' u' w2' h1 hG' hok
          obtain ⟨rfl, rfl⟩ := hsame w1' u' w2' h1 hG'
          simp [hE] at hok
  · simp [loggedInMiddleware.ServeHTTP, hS, List.countP_cons, Event.isSetUserSession,
      Event.isNext]

/-- Evaluation of C6 on the refresh scenario: the request is admitted after
the five calls of the refresh chain, and the record stored before `next` is
the refreshed one. -/
theorem loggedInMiddleware_admits_iff_witness :
    (loggedInMiddleware.ServeHTTP (sessionsHolding (some expiredSession)) scenarioService
        pageRequest 0).2
      = [Event.StartUserSession, Event.contextSetSessionService, Event.GetUserSession,
         Event.Authenticate "expired", Event.FindClientByClientID "c1",
         Event.ValidateRefreshToken "r1" "c1", Event.GrantAccessToken "c1" "userX" "scopeY",
         Event.GetOrCreateRefreshToken "c1" "userX" "scopeY",
         Event.SetUserSession ⟨"c1", "new-a", "new-r"⟩, Event.next] :=
  ((loggedInMiddleware_admits_iff (sessionsHolding (some expiredSession)) scenarioService
      pageRequest 0).2.1 1 expiredSession 2 rfl rfl rfl).1

/-- The redirect does not carry the query string verbatim (against C7): with
no stored session, the query `state=xyz&client_id=c1` comes back as
`client_id=c1&state=xyz`, its parameters in another order, and the query
`state=xyz&back=%zz&q=a%20b` comes back as `q=a+b&state=xyz`, the parameter
`back` dropped and the value of `q` spelt differently. -/
theorem loggedInMiddleware_redirect_not_verbatim :
    loggedInMiddleware.ServeHTTP (sessionsHolding none) scenarioService unsortedRequest 0
      = (2, [Event.StartUserSession, Event.contextSetSessionService, Event.GetUserSession,
             Event.httpRedirect "/web/login?client_id=c1&state=xyz" 302])
    ∧ "/web/login?client_id=c1&state=xyz" ≠ "/web/login?" ++ unsortedRequest.RawQuery
    ∧ loggedInMiddleware.ServeHTTP (sessionsHolding none) scenarioService
        brokenEscapeRequest 0
      = (2, [Event.StartUserSession, Event.contextSetSessionService, Event.GetUserSession,
             Event.httpRedirect "/web/login?q=a+b&state=xyz" 302])
    ∧ "/web/login?q=a+b&state=xyz" ≠ "/web/login?" ++ brokenEscapeRequest.RawQuery :=
  ⟨rfl, by decide, rfl, by decide⟩

/-- C7, amended: when the session starts but `GetUserSession` fails,
`loggedInMiddleware` ends with `http.Redirect`, status 302, to `/web/login`
followed by `?` and `Values.Encode` of the map that `r.URL.Query()` parsed
from the query string of the request (nothing follows when that encoding is
empty); `authenticate` is not run (no call reaches the oauth service), no
record is stored and `next` is not called. -/
theorem loggedInMiddleware_no_session_redirect {W Client User : Type}
    (sessionService : SessionService W) (oauthService : OauthService W Client User)
    (r : Request) (w w1 w2 : W) (err : GoError)
    (hS : sessionService.StartUserSession w = (none, w1))
    (hG : sessionService.GetUserSession w1 = (.error err, w2)) :
    loggedInMiddleware.ServeHTTP sessionService oauthService r w
      = (w2, [Event.StartUserSession, Event.contextSetSessionService, Event.GetUserSession,
              Event.httpRedirect
                ("/web/login" ++
                  if (ParseQuery r.RawQuery).Encode.length > 0
                  then "?" ++ (ParseQuery r.RawQuery).Encode else "") 302])
    ∧ (∀ accessToken, Event.Authenticate accessToken
        ∉ (loggedInMiddleware.ServeHTTP sessionService oauthService r w).2)
    ∧ (∀ userSession, Event.SetUserSession userSession
        ∉ (loggedInMiddleware.ServeHTTP sessionService oauthService r w).2)
    ∧ Event.next ∉ (loggedInMiddleware.ServeHTTP sessionService oauthService r w).2 := by
  simp [loggedInMiddleware.ServeHTTP, hS, hG, redirectWithQueryString, Request.URLQuery,
    StatusFound]

/-- Witness of the amended C7: a request with the query
`client_id=c1&state=xyz` and no stored session. -/
theorem loggedInMiddleware_no_session_redirect_witness :
    loggedInMiddleware.ServeHTTP (sessionsHolding none) scenarioService pageRequest 0
      = (2, [Event.StartUserSession, Event.contextSetSessionService, Event.GetUserSession,
             Event.httpRedirect "/web/login?client_id=c1&state=xyz" 302]) :=
  (loggedInMiddleware_no_session_redirect (sessionsHolding none) scenarioService pageRequest
    0 1 2 ⟨"user session not found"⟩ rfl rfl).1

/-! ## `clientMiddleware` -/

/-- A missing `client_id` can be admitted (against C9): the request carries no
`client_id`, the directory holds a client whose identifier is the empty
string, and `clientMiddleware` stores that client and calls `next` instead of
answering 400. -/
theorem clientMiddleware_missing_id_admitted :
    bareRequest.Form.lookup "client_id" = none
    ∧ clientMiddleware.ServeHTTP blankClientService bareRequest 0
        = (1, [Event.FindClientByClientID "", Event.contextSetClient "", Event.next]) :=
  ⟨by decide, rfl⟩

/-- C9, amended: `clientMiddleware` looks up the client named by
`r.Form.Get("client_id")`, which is the empty string when the parameter is
missing. When the lookup fails it answers with `http.Error` carrying the text
of the error and status 400, stores no client and does not call `next`; when
the lookup succeeds it stores the client found and then calls `next`. -/
theorem clientMiddleware_lookup {W Client User : Type}
    (oauthService : OauthService W Client User) (r : Request) (w : W) :
    (r.Form.lookup "client_id" = none → r.Form.Get "client_id" = "")
    ∧ (∀ err w1,
        oauthService.FindClientByClientID (r.Form.Get "client_id") w = (.error err, w1) →
        clientMiddleware.ServeHTTP oauthService r w
          = (w1, [Event.FindClientByClientID (r.Form.Get "client_id"),
                  Event.httpError err.Error 400])
        ∧ (∀ client, Event.contextSetClient client
            ∉ (clientMiddleware.ServeHTTP oauthService r w).2)
        ∧ Event.next ∉ (clientMiddleware.ServeHTTP oauthService r w).2)
    ∧ (∀ client w1,
        oauthService.FindClientByClientID (r.Form.Get "client_id") w = (.ok client, w1) →
        clientMiddleware.ServeHTTP oauthService r w
          = (w1, [Event.FindClientByClientID (r.Form.Get "client_id"),
                  Event.contextSetClient client, Event.next])) := by
  refine ⟨fun h => by simp [Values.Get, h], fun err w1 h => ?_, fun client w1 h => ?_⟩
  · simp [clientMiddleware.ServeHTTP, h, StatusBadRequest]
  · simp [clientMiddleware.ServeHTTP, h]

/-- Witness of the amended C9: an unknown `client_id` is answered with 400,
and a missing one is looked up as the empty string. -/
theorem clientMiddleware_lookup_witness :
    clientMiddleware.ServeHTTP scenarioService strangerRequest 0
      = (1, [Event.FindClientByClientID "nobody", Event.httpError "client not found" 400])
    ∧ bareRequest.Form.Get "client_id" = "" :=
  ⟨((clientMiddleware_lookup scenarioService strangerRequest 0).2.1
      ⟨"client not found"⟩ 1 rfl).1,
   (clientMiddleware_lookup scenarioService bareRequest 0).1 (by decide)⟩

end Web
